import Mathlib

/-!
Verification of the Narrative Decomposition Pipeline (src/main.py) against its
design specification.

The pipeline consumes a Linguistic Annotation Provider (spaCy in the source):
given raw text it returns sentence spans, per-token part-of-speech/dependency
annotations, and entity spans.  We embed a provider result as a `Doc` value and
embed each pipeline method as a pure Lean function of the provider result; a
provider failure is represented by the `Except.error` side of the argument,
mirroring the `try/except` blocks of the source.  Python strings are embedded
as `List Char` where whitespace-level reasoning is needed (scene segmentation)
and as `String` elsewhere; Python floats carry only the exact values 1.0 and
1.5 here, so they are embedded as `ℚ`; Python ints are embedded as `Int`.
-/

/-! ## Basic text utilities (Python string primitives used by the source) -/

/-- Embedding of Python `str.lower` on a character list.  `Char.toLower`
agrees with Python lowercasing on the ASCII text this development evaluates. -/
def lowerChars (s : List Char) : List Char :=
  s.map Char.toLower

/-- Embedding of Python `str.lower` on `String`. -/
def lowerStr (s : String) : String :=
  ⟨s.data.map Char.toLower⟩

/-- Embedding of the Python substring test `needle in hay` (contiguous
substring containment). -/
def isSubstring (needle : List Char) : List Char → Bool
  | [] => needle.isEmpty
  | c :: t => needle.isPrefixOf (c :: t) || isSubstring needle t

/-- Embedding of Python `" ".join(parts)` on character lists. -/
def joinSp : List (List Char) → List Char
  | [] => []
  | [s] => s
  | s :: rest => s ++ ' ' :: joinSp rest

/-- Helper for `words`: scan the text, `cur` holding the reversed current word. -/
def wordsAux : List Char → List Char → List (List Char)
  | [], cur => if cur.isEmpty then [] else [cur.reverse]
  | c :: cs, cur =>
    if c.isWhitespace then
      if cur.isEmpty then wordsAux cs [] else cur.reverse :: wordsAux cs []
    else wordsAux cs (c :: cur)

/-- The maximal whitespace-free words of a text, in order.  Two texts are equal
modulo separating whitespace exactly when their `words` lists are equal; this
is the equivalence the specification means by "concatenation (modulo separating
whitespace) reproducing the text". -/
def words (l : List Char) : List (List Char) :=
  wordsAux l []

/-! ## Error taxonomy (src/main.py lines 26-39) -/

/-- Embedding of the `ProcessingError` exception class; the field carries the
message built at the raise site. -/
structure ProcessingError where
  msg : String
deriving DecidableEq

/-! ## Annotation-provider data model (the spaCy objects the source reads) -/

/-- One provider token.  `i` is the token's index in the document (spaCy
`Token.i`), which serves as token identity: the source compares tokens with
`token.head == ent.root`, embedded as equality of indices.  The fields `text`,
`pos_`, `dep_` and `head` are exactly the token attributes the source reads. -/
structure Token where
  i : Nat
  text : String
  pos_ : String
  dep_ : String
  head : Nat

/-- One provider entity span (spaCy `Span`): the surface `text`, the entity
`label_`, and the index of the span's syntactic `root` token. -/
structure Span where
  text : String
  label_ : String
  root : Nat

/-- A provider analysis result (spaCy `Doc`): sentence texts in order
(`doc.sents`), tokens in left-to-right order (`for token in doc`), and entity
spans in left-to-right order of appearance (`doc.ents`). -/
structure Doc where
  sents : List (List Char)
  tokens : List Token
  ents : List Span

/-! ## Data model of the pipeline (src/main.py lines 41-88) -/

/-- Embedding of the `Entity` dataclass (src/main.py lines 41-47).  Field order
and names follow the source; in particular the weight field is spelled
`importanc` there (line 47), with default 1.0. -/
structure Entity where
  name : String
  type : String
  attributes : List (String × String)
  position : Option (List (String × ℚ)) := none
  importanc : ℚ := 1.0

/-- Embedding of the `EmotionType` enum (src/main.py lines 52-61), values in
declaration order. -/
inductive EmotionType where
  | HAPPY
  | SAD
  | NEUTRAL
  | ANGRY
  | SURPRISE
  | FEAR
  | DISGUST
  | CONFUSED
  | OTHER
deriving DecidableEq

/-- The `value` of each enum member, as declared in the source. -/
def EmotionType.value : EmotionType → String
  | EmotionType.HAPPY => "happy"
  | EmotionType.SAD => "sad"
  | EmotionType.NEUTRAL => "neutral"
  | EmotionType.ANGRY => "angry"
  | EmotionType.SURPRISE => "surprise"
  | EmotionType.FEAR => "fear"
  | EmotionType.DISGUST => "disgust"
  | EmotionType.CONFUSED => "confused"
  | EmotionType.OTHER => "other"

/-- Embedding of the Python `Enum` by-value constructor `EmotionType(s)`:
`some` member whose `value` equals `s`, else `none` (Python raises
`ValueError`, which the source catches). -/
def EmotionType.fromValue (s : String) : Option EmotionType :=
  if s == "happy" then some EmotionType.HAPPY
  else if s == "sad" then some EmotionType.SAD
  else if s == "neutral" then some EmotionType.NEUTRAL
  else if s == "angry" then some EmotionType.ANGRY
  else if s == "surprise" then some EmotionType.SURPRISE
  else if s == "fear" then some EmotionType.FEAR
  else if s == "disgust" then some EmotionType.DISGUST
  else if s == "confused" then some EmotionType.CONFUSED
  else if s == "other" then some EmotionType.OTHER
  else none

/-- Embedding of `EmotionType.from_string` (src/main.py lines 63-68):
`cls(emotion.lower())`, returning `OTHER` on `ValueError`. -/
def EmotionType.from_string (emotion : String) : EmotionType :=
  match EmotionType.fromValue (lowerStr emotion) with
  | some e => e
  | none => EmotionType.OTHER

/-- A Python value, as produced by the `to_dict` serializers. -/
inductive PyVal where
  | str : String → PyVal
  | int : Int → PyVal
  | rat : ℚ → PyVal
  | noneV : PyVal
  | list : List PyVal → PyVal
  | dict : List (String × PyVal) → PyVal

/-- Embedding of `Entity.to_dict` (src/main.py lines 49-50): `asdict(self)`,
whose keys are the dataclass field names in declaration order. -/
def Entity.to_dict (e : Entity) : List (String × PyVal) :=
  [("name", PyVal.str e.name),
   ("type", PyVal.str e.type),
   ("attributes", PyVal.dict (e.attributes.map (fun kv => (kv.1, PyVal.str kv.2)))),
   ("position", match e.position with
     | some p => PyVal.dict (p.map (fun kv => (kv.1, PyVal.rat kv.2)))
     | none => PyVal.noneV),
   ("importanc", PyVal.rat e.importanc)]

/-- Embedding of the `Scene` dataclass (src/main.py lines 69-77).  `id` is a
Python `int`, hence `Int`. -/
structure Scene where
  id : Int
  text : List Char
  entities : List Entity
  mood : EmotionType
  actions : List String
  layout : Option (List (String × PyVal)) := none
  image_path : Option String := none

/-- Embedding of `Scene.to_dict` (src/main.py lines 79-88), mirroring the
explicit dictionary literal of the source, key by key. -/
def Scene.to_dict (s : Scene) : List (String × PyVal) :=
  [("id", PyVal.int s.id),
   ("text", PyVal.str (String.mk s.text)),
   ("entities", PyVal.list (s.entities.map (fun e => PyVal.dict e.to_dict))),
   ("mood", PyVal.str s.mood.value),
   ("actions", PyVal.list (s.actions.map PyVal.str)),
   ("layout", match s.layout with
     | some l => PyVal.dict l
     | none => PyVal.noneV),
   ("image_path", match s.image_path with
     | some p => PyVal.str p
     | none => PyVal.noneV)]

/-! ## Scene Segmenter (src/main.py lines 100-116) -/

/-- The fixed discourse-transition marker list of src/main.py line 108. -/
def markers : List (List Char) :=
  ["later".toList, "meanwhile".toList, "after".toList,
   "before".toList, "next".toList, "suddenly".toList]

/-- Embedding of `any(marker in sent.text.lower() for marker in [...])`
(src/main.py lines 107-108): substring (not whole-word) containment in the
lowercased sentence. -/
def hasMarker (sent : List Char) : Bool :=
  markers.any (fun marker => isSubstring marker (lowerChars sent))

/-- Embedding of the sentence loop of `segment_scenes` (src/main.py lines
104-112): accumulate sentences into `current_scene`; after appending a
sentence, if it contains a marker, flush `" ".join(current_scene)` to the
output and reset; after the loop, flush a non-empty remainder. -/
def segLoop : List (List Char) → List (List Char) → List (List Char)
  | [], current_scene =>
    if current_scene.isEmpty then [] else [joinSp current_scene]
  | sent :: rest, current_scene =>
    if hasMarker sent then joinSp (current_scene ++ [sent]) :: segLoop rest []
    else segLoop rest (current_scene ++ [sent])

/-- The pure body of `segment_scenes` given the provider's sentences: the loop
result, with the fallback `return scenes if scenes else [text]` of src/main.py
line 113. -/
def segPure (text : List Char) (sents : List (List Char)) : List (List Char) :=
  if (segLoop sents []).isEmpty then [text] else segLoop sents []

/-- Embedding of `TextProcesor.segment_scenes` (src/main.py lines 100-116).
The argument `pr` is the outcome of `self.nlp(text)`; a provider failure is
caught and re-raised as `ProcessingError` (lines 114-116). -/
def segment_scenes (text : List Char) (pr : Except Unit Doc) :
    Except ProcessingError (List (List Char)) :=
  match pr with
  | Except.error _ => Except.error ⟨"Failed to segment scenes"⟩
  | Except.ok d => Except.ok (segPure text d.sents)

/-! ## Entity Extractor (src/main.py lines 118-147) -/

/-- Embedding of `TextProcesor._get_entity_description` (src/main.py lines
141-147): collect, over all tokens of the doc in order, the `text` of tokens
whose `head` is the entity's `root` and whose `dep_` is `amod` or `advmod`;
join with single spaces, empty string when none qualify. -/
def get_entity_description (ent : Span) (d : Doc) : String :=
  let description_terms :=
    (d.tokens.filter (fun token =>
      token.head == ent.root && (token.dep_ == "amod" || token.dep_ == "advmod"))).map
      (fun token => token.text)
  if description_terms.isEmpty then "" else String.intercalate " " description_terms

/-- Embedding of the constructor call `Entity(name=..., type=...,
attributes=..., importance=importance)` at src/main.py lines 130-135.  The
`Entity` dataclass declares no field named `importance` (its field is spelled
`importanc`, line 47), so in Python this call raises
`TypeError: unexpected keyword argument`; it therefore never yields a value,
embedded as the constant `none`. -/
def entityCtorImportanceKw (name : String) (ty : String)
    (attributes : List (String × String)) (importance : ℚ) : Option Entity :=
  none

/-- Embedding of the `for ent in doc.ents` loop of `extract_entities`
(src/main.py lines 122-135): per span compute the importance weight (1.0,
multiplied by 1.5 for `PERSON`/`ORG`), build the attributes mapping, and
construct the `Entity`; the failing constructor call is caught by the blanket
`except` and re-raised as `ProcessingError` (lines 137-139). -/
def extractLoop (d : Doc) : List Span → List Entity →
    Except ProcessingError (List Entity)
  | [], entities => Except.ok entities
  | ent :: rest, entities =>
    let importance : ℚ := if ent.label_ == "PERSON" || ent.label_ == "ORG"
      then 1.0 * 1.5 else 1.0
    let attributes := [("description", get_entity_description ent d),
                       ("label", ent.label_)]
    match entityCtorImportanceKw ent.text ent.label_ attributes importance with
    | some e => extractLoop d rest (entities ++ [e])
    | none => Except.error ⟨"Entity extraction failed"⟩

/-- Embedding of `TextProcesor.extract_entities` (src/main.py lines 118-139).
A provider failure, like any exception in the body, is re-raised as
`ProcessingError`. -/
def extract_entities (pr : Except Unit Doc) : Except ProcessingError (List Entity) :=
  match pr with
  | Except.error _ => Except.error ⟨"Entity extraction failed"⟩
  | Except.ok d => extractLoop d d.ents []

/-! ## Action Extractor (src/main.py lines 149-161) -/

/-- Embedding of the token loop of `detect_actions` (src/main.py lines
153-157): for each token with `pos_ == "VERB"` and `dep_` in
`["ROOT", "xcomp"]`, build the verb phrase and append it if non-empty.  The
phrase builder `_extract_verb_phrase` is not defined in src/main.py (the file
ends before it); it is passed here as the abstract argument `vp` — modelled
from the spec, which treats verb-phrase construction as an external,
provider-assisted span construction. -/
def actLoop (vp : Token → String) : List Token → List String → List String
  | [], actions => actions
  | token :: rest, actions =>
    if token.pos_ == "VERB" && (token.dep_ == "ROOT" || token.dep_ == "xcomp") then
      if (vp token).isEmpty then actLoop vp rest actions
      else actLoop vp rest (actions ++ [vp token])
    else actLoop vp rest actions

/-- Embedding of `TextProcesor.detect_actions` (src/main.py lines 149-161),
with the missing `_extract_verb_phrase` as the abstract argument `vp`. -/
def detect_actions (vp : Token → String) (pr : Except Unit Doc) :
    Except ProcessingError (List String) :=
  match pr with
  | Except.error _ => Except.error ⟨"Action detection failed"⟩
  | Except.ok d => Except.ok (actLoop vp d.tokens [])

/-- The specification-side characterization of `detect_actions` (spec §4.3):
one phrase per token that is a `VERB` with dependency `ROOT` or `xcomp` and
whose constructed phrase is non-empty, in left-to-right token order,
duplicates preserved. -/
def detect_actions_spec (vp : Token → String) (toks : List Token) : List String :=
  (toks.filter (fun t =>
    t.pos_ == "VERB" && (t.dep_ == "ROOT" || t.dep_ == "xcomp") && !(vp t).isEmpty)).map vp

/-! ## Scene Assembler -/

/-- Helper for `build_scenes`: assemble one `Scene` per scene text, assigning
consecutive ids starting at `i`, failing wholly on the first stage failure. -/
def assembleLoop (ef : List Char → Except ProcessingError (List Entity))
    (af : List Char → Except ProcessingError (List String))
    (mf : List Char → Except ProcessingError EmotionType) (i : Nat) :
    List (List Char) → Except ProcessingError (List Scene)
  | [] => Except.ok []
  | s :: rest =>
    match ef s with
    | Except.error e => Except.error e
    | Except.ok es =>
      match af s with
      | Except.error e => Except.error e
      | Except.ok acts =>
        match mf s with
        | Except.error e => Except.error e
        | Except.ok m =>
          match assembleLoop ef af mf (i + 1) rest with
          | Except.error e => Except.error e
          | Except.ok scenes =>
            Except.ok (⟨Int.ofNat i, s, es, m, acts, none, none⟩ :: scenes)

/-- Modelled from the spec: `build_scenes` (Scene Assembler, spec §4.5) is
missing from src/main.py — the file is truncated after `detect_actions`.  Per
the spec it runs the Segmenter once on the full text, then per scene text, in
order, runs the Entity Extractor, Action Extractor and Mood Classifier
(abstract arguments `ef`, `af`, `mf` here), assigns `id` as the zero-based
sequential index, and fails wholly with the originating `ProcessingError` if
any sub-stage fails. -/
def build_scenes (ef : List Char → Except ProcessingError (List Entity))
    (af : List Char → Except ProcessingError (List String))
    (mf : List Char → Except ProcessingError EmotionType)
    (text : List Char) (pr : Except Unit Doc) :
    Except ProcessingError (List Scene) :=
  match segment_scenes text pr with
  | Except.error e => Except.error e
  | Except.ok sceneTexts => assembleLoop ef af mf 0 sceneTexts

/-! ## Helper lemmas: words and joining -/

theorem wordsAux_append_space (b : List Char) :
    ∀ (a cur : List Char), wordsAux (a ++ ' ' :: b) cur = wordsAux a cur ++ words b := by
  intro a
  induction a with
  | nil =>
    intro cur
    by_cases hc : cur.isEmpty <;> simp [wordsAux, words, hc]
  | cons c cs ih =>
    intro cur
    by_cases hw : c.isWhitespace
    · by_cases hc : cur.isEmpty <;> simp [wordsAux, hw, hc, ih]
    · simp [wordsAux, hw, ih]

theorem words_append_space (a b : List Char) :
    words (a ++ ' ' :: b) = words a ++ words b :=
  wordsAux_append_space b a []

theorem words_joinSp : ∀ (bs : List (List Char)), words (joinSp bs) = bs.flatMap words := by
  intro bs
  induction bs with
  | nil => simp [joinSp, words, wordsAux]
  | cons s rest ih =>
    cases rest with
    | nil => simp [joinSp]
    | cons x rest2 =>
      show words (s ++ ' ' :: joinSp (x :: rest2)) = _
      rw [words_append_space, ih]
      simp

/-! ## Helper lemmas: the segmentation loop -/

theorem segLoop_words : ∀ (sents current_scene : List (List Char)),
    (segLoop sents current_scene).flatMap words =
      (current_scene ++ sents).flatMap words := by
  intro sents
  induction sents with
  | nil =>
    intro cur
    by_cases hc : cur.isEmpty
    · simp [segLoop, hc, List.isEmpty_iff.mp hc]
    · simp [segLoop, hc, words_joinSp]
  | cons s rest ih =>
    intro cur
    by_cases hm : hasMarker s
    · simp [segLoop, hm, words_joinSp, ih]
    · simp only [segLoop, hm, Bool.false_eq_true, if_false, ih]
      simp

theorem segLoop_noMarker : ∀ (sents current_scene : List (List Char)),
    (∀ s ∈ sents, hasMarker s = false) →
    segLoop sents current_scene =
      if (current_scene ++ sents).isEmpty then [] else [joinSp (current_scene ++ sents)] := by
  intro sents
  induction sents with
  | nil => intro cur _; simp [segLoop]
  | cons s rest ih =>
    intro cur h
    have hs : hasMarker s = false := h s (by simp)
    have hrest : ∀ x ∈ rest, hasMarker x = false := fun x hx => h x (by simp [hx])
    simp only [segLoop, hs, Bool.false_eq_true, if_false]
    rw [ih (cur ++ [s]) hrest]
    simp

theorem segPure_ne_nil (text : List Char) (sents : List (List Char)) :
    segPure text sents ≠ [] := by
  unfold segPure
  split
  · simp
  · rename_i hne
    intro hnil
    rw [hnil] at hne
    simp at hne

/-! ## Claim C1 -/

/-- Claim C1: for every input text on which the annotation provider succeeds
(and whose reported sentence spans partition the text, as the provider
contract of spec §6 states: the sentences, read in order, reproduce the text
modulo separating whitespace), `segment_scenes` returns an ordered sequence of
scene strings whose concatenation, modulo the separating whitespace,
reproduces the original input text exactly. -/
theorem segment_scenes_lossless (text : List Char) (d : Doc)
    (h : d.sents.flatMap words = words text) :
    ∃ scenes, segment_scenes text (Except.ok d) = Except.ok scenes ∧
      scenes.flatMap words = words text := by
  refine ⟨segPure text d.sents, rfl, ?_⟩
  unfold segPure
  split
  · simp
  · have hw := segLoop_words d.sents []
    simpa [h] using hw

/-- Concrete provider output for the C1 witness. -/
def docW1 : Doc :=
  ⟨["It was dark.".toList, "Suddenly a door opened.".toList, "They left.".toList],
   [], []⟩

/-- Concrete input text for the C1 witness. -/
def textW1 : List Char :=
  "It was dark. Suddenly a door opened. They left.".toList

/-- Witness for C1 at a concrete input whose second sentence fires the
`suddenly` marker. -/
theorem segment_scenes_lossless_witness :
    docW1.sents.flatMap words = words textW1 ∧
    (∃ scenes, segment_scenes textW1 (Except.ok docW1) = Except.ok scenes ∧
      scenes.flatMap words = words textW1) :=
  ⟨by decide, segment_scenes_lossless textW1 docW1 (by decide)⟩

/-! ## Claim C4 -/

/-- Concrete input for the C4 counterexample: two marker-free sentences
separated by a newline in the original text. -/
def textC4 : List Char := "He ran.\nShe hid.".toList

/-- Provider output for the C4 counterexample: the two sentence spans of
`textC4` (spaCy sentence spans do not carry the separating whitespace). -/
def docC4 : Doc := ⟨["He ran.".toList, "She hid.".toList], [], []⟩

/-- Counterexample to claim C4 as stated: the provider succeeds on the
non-empty text `"He ran.\nShe hid."` with marker-free sentences `"He ran."`
and `"She hid."` (which partition the text modulo whitespace), yet
`segment_scenes` does not return the singleton holding the whole input: the
code returns the sentences joined by single spaces, `"He ran. She hid."`,
which differs from the input at the newline. -/
theorem segment_scenes_whole_input_cex :
    docC4.sents.flatMap words = words textC4 ∧
    docC4.sents.all (fun s => !hasMarker s) = true ∧
    textC4 ≠ [] ∧
    segment_scenes textC4 (Except.ok docC4) ≠ Except.ok [textC4] := by
  refine ⟨by decide, by decide, by decide, ?_⟩
  intro h
  have h2 : segPure textC4 docC4.sents = [textC4] := by
    simpa [segment_scenes] using h
  exact absurd h2 (by decide)

/-- Claim C4 (amended): for every input on which the provider succeeds,
`segment_scenes` returns a non-empty sequence; and if no sentence contains a
discourse marker, the result is exactly one scene — the whole input when the
provider reports no sentence, and otherwise the sentences joined by single
spaces (the whole input modulo its separating whitespace). -/
theorem segment_scenes_nonempty_single (text : List Char) (d : Doc) :
    (∀ scenes, segment_scenes text (Except.ok d) = Except.ok scenes → scenes ≠ []) ∧
    ((∀ s ∈ d.sents, hasMarker s = false) →
      segment_scenes text (Except.ok d) =
        Except.ok (if d.sents.isEmpty then [text] else [joinSp d.sents])) := by
  constructor
  · intro scenes hsc
    have : scenes = segPure text d.sents := by
      simpa [segment_scenes] using hsc.symm
    rw [this]
    exact segPure_ne_nil text d.sents
  · intro hm
    show Except.ok (segPure text d.sents) = _
    unfold segPure
    rw [segLoop_noMarker d.sents [] hm]
    cases d.sents with
    | nil => simp
    | cons s rest => simp

/-- Concrete provider output for the C4 witness: two marker-free sentences. -/
def docW4 : Doc := ⟨["Hi there.".toList, "Bye.".toList], [], []⟩

/-- Concrete input text for the C4 witness. -/
def textW4 : List Char := "Hi there. Bye.".toList

/-- Witness for the amended C4 at a concrete marker-free input. -/
theorem segment_scenes_nonempty_single_witness :
    (∀ scenes, segment_scenes textW4 (Except.ok docW4) = Except.ok scenes →
      scenes ≠ []) ∧
    segment_scenes textW4 (Except.ok docW4) =
      Except.ok (if docW4.sents.isEmpty then [textW4] else [joinSp docW4.sents]) :=
  ⟨(segment_scenes_nonempty_single textW4 docW4).1,
   (segment_scenes_nonempty_single textW4 docW4).2 (by decide)⟩

/-! ## Claim C3 -/

/-- Mapping any member's declared value back through `from_string` returns
that member. -/
theorem emotionType_from_string_value (e : EmotionType) :
    EmotionType.from_string e.value = e := by
  cases e <;> rfl

/-- Claim C3: `EmotionType.from_string` is total over all strings (it is a
function into `EmotionType`, with unrecognized values mapped to `OTHER` rather
than failing), case-insensitive (`from_string "HAPPY" = HAPPY`), and
idempotent: for every string `s`,
`from_string (from_string s).value = from_string s`. -/
theorem emotionType_from_string_props :
    EmotionType.from_string "HAPPY" = EmotionType.HAPPY ∧
    EmotionType.from_string "gibberish" = EmotionType.OTHER ∧
    ∀ s : String, EmotionType.from_string (EmotionType.from_string s).value =
      EmotionType.from_string s :=
  ⟨by decide, by decide, fun s => emotionType_from_string_value (EmotionType.from_string s)⟩

/-! ## Claims C2, C6, C7: concrete provider outputs -/

/-- Provider output for the scene text `"Maria walked into the garden."`:
one `PERSON` span over `Maria`, whose root is token 0. -/
def mariaDoc : Doc :=
  ⟨["Maria walked into the garden.".toList],
   [⟨0, "Maria", "PROPN", "nsubj", 1⟩,
    ⟨1, "walked", "VERB", "ROOT", 1⟩,
    ⟨2, "into", "ADP", "prep", 1⟩,
    ⟨3, "the", "DET", "det", 4⟩,
    ⟨4, "garden", "NOUN", "pobj", 2⟩,
    ⟨5, ".", "PUNCT", "punct", 1⟩],
   [⟨"Maria", "PERSON", 0⟩]⟩

/-- Provider output for the scene text `"Acme hired Bob."`: an `ORG` span and
a `PERSON` span. -/
def acmeDoc : Doc :=
  ⟨["Acme hired Bob.".toList],
   [⟨0, "Acme", "PROPN", "nsubj", 1⟩,
    ⟨1, "hired", "VERB", "ROOT", 1⟩,
    ⟨2, "Bob", "PROPN", "dobj", 1⟩,
    ⟨3, ".", "PUNCT", "punct", 1⟩],
   [⟨"Acme", "ORG", 0⟩, ⟨"Bob", "PERSON", 2⟩]⟩

/-- Provider output for the scene text `"Angry Maria left quickly."`: one
`PERSON` span over `Maria` (root token 1), with an `amod` dependent of token 1
(`Angry`) and an `advmod` dependent of the verb (`quickly`). -/
def angryDoc : Doc :=
  ⟨["Angry Maria left quickly.".toList],
   [⟨0, "Angry", "ADJ", "amod", 1⟩,
    ⟨1, "Maria", "PROPN", "nsubj", 2⟩,
    ⟨2, "left", "VERB", "ROOT", 2⟩,
    ⟨3, "quickly", "ADV", "advmod", 2⟩,
    ⟨4, ".", "PUNCT", "punct", 2⟩],
   [⟨"Maria", "PERSON", 1⟩]⟩

/-- Claim C2 (code bug): evaluating `extract_entities` at a scene whose
provider annotation reports the single `PERSON` span `Maria` shows that no
entity record with importance 1.5 is ever returned: the constructor call
passes the keyword `importance` while the dataclass field is `importanc`, so
the whole call fails with `ProcessingError`. -/
theorem extract_entities_importance_bug :
    extract_entities (Except.ok mariaDoc) =
      Except.error ⟨"Entity extraction failed"⟩ := rfl

/-- Claim C6 (code bug): `extract_entities` raises `ProcessingError` when the
provider fails, but it also raises `ProcessingError` on a scene where the
provider succeeds and reports entity spans (here `"Acme hired Bob."`), so the
raise is not equivalent to provider failure. -/
theorem extract_entities_error_despite_success :
    extract_entities (Except.error ()) = Except.error ⟨"Entity extraction failed"⟩ ∧
    extract_entities (Except.ok acmeDoc) = Except.error ⟨"Entity extraction failed"⟩ :=
  ⟨rfl, rfl⟩

/-- Claim C7 (code bug): the description builder itself computes exactly what
the claim states — for the `Maria` span of `"Angry Maria left quickly."` it
joins the `amod`/`advmod` dependents of the span's root token, giving
`"Angry"` — but `extract_entities` never attaches it to any produced entity:
the constructor call fails (`importanc`/`importance` mismatch), so no entity
record is ever produced. -/
theorem extract_entities_description_bug :
    get_entity_description ⟨"Maria", "PERSON", 1⟩ angryDoc = "Angry" ∧
    extract_entities (Except.ok angryDoc) =
      Except.error ⟨"Entity extraction failed"⟩ :=
  ⟨rfl, rfl⟩

/-! ## Claim C5 -/

/-- A concrete `Entity` value for evaluating the serialization shape. -/
def entityW5 : Entity :=
  ⟨"Maria", "PERSON", [("description", "Angry"), ("label", "PERSON")], none, 1.5⟩

/-- A concrete `Scene` value for evaluating the serialization shape. -/
def sceneW5 : Scene :=
  ⟨Int.ofNat 0, "Maria left.".toList, [entityW5], EmotionType.HAPPY, ["left"],
   none, none⟩

/-- Claim C5 (code bug): evaluating the serializers shows the `Scene` mapping
has exactly the claimed keys, but the `Entity` mapping's last key is the
misspelled dataclass field name `importanc`, not the `importance` the
contract states. -/
theorem to_dict_keys_importanc :
    (Entity.to_dict entityW5).map Prod.fst =
      ["name", "type", "attributes", "position", "importanc"] ∧
    (Scene.to_dict sceneW5).map Prod.fst =
      ["id", "text", "entities", "mood", "actions", "layout", "image_path"] :=
  ⟨rfl, rfl⟩

/-! ## Claim C8 -/

/-- The action loop appends exactly the specification-side phrase list to its
accumulator. -/
theorem actLoop_eq_spec (vp : Token → String) :
    ∀ (toks : List Token) (acc : List String),
      actLoop vp toks acc = acc ++ detect_actions_spec vp toks := by
  intro toks
  induction toks with
  | nil => intro acc; simp [actLoop, detect_actions_spec]
  | cons t rest ih =>
    intro acc
    by_cases h1 : (t.pos_ == "VERB" && (t.dep_ == "ROOT" || t.dep_ == "xcomp")) = true
    · by_cases h2 : (vp t).isEmpty
      · simp [actLoop, detect_actions_spec, h1, h2, ih, List.filter]
      · simp [actLoop, detect_actions_spec, h1, h2, ih, List.filter]
    · simp only [Bool.not_eq_true] at h1
      simp [actLoop, detect_actions_spec, h1, ih, List.filter]

/-- Claim C8: for every scene on which the provider succeeds, `detect_actions`
returns exactly one phrase per token that is a `VERB` with dependency `ROOT`
or `xcomp` and whose constructed verb phrase is non-empty, in left-to-right
order of the triggering token, duplicates preserved — that is, the filter/map
characterization `detect_actions_spec`, stated for every phrase constructor
`vp` since `_extract_verb_phrase` is modelled from the spec as an abstract
span construction. -/
theorem detect_actions_order (vp : Token → String) (d : Doc) :
    detect_actions vp (Except.ok d) =
      Except.ok (detect_actions_spec vp d.tokens) := by
  show Except.ok (actLoop vp d.tokens []) = _
  rw [actLoop_eq_spec vp d.tokens []]
  rfl

/-! ## Claim C10 -/

/-- Claim C10: if the provider succeeds and no token is a `VERB` with
dependency `ROOT` or `xcomp`, `detect_actions` returns the empty list and
raises no error. -/
theorem detect_actions_empty_on_no_verbs (vp : Token → String) (d : Doc)
    (h : ∀ t ∈ d.tokens, ¬(t.pos_ = "VERB" ∧ (t.dep_ = "ROOT" ∨ t.dep_ = "xcomp"))) :
    detect_actions vp (Except.ok d) = Except.ok [] := by
  show Except.ok (actLoop vp d.tokens []) = _
  rw [actLoop_eq_spec vp d.tokens []]
  have hf : detect_actions_spec vp d.tokens = [] := by
    unfold detect_actions_spec
    have : d.tokens.filter (fun t =>
        t.pos_ == "VERB" && (t.dep_ == "ROOT" || t.dep_ == "xcomp") && !(vp t).isEmpty) = [] := by
      rw [List.filter_eq_nil_iff]
      intro t ht
      have ht2 := h t ht
      simp only [Bool.and_eq_true, beq_iff_eq, Bool.or_eq_true, Bool.not_eq_true']
      intro hc
      exact ht2 ⟨hc.1.1, hc.1.2⟩
    rw [this]
    rfl
  rw [hf]
  rfl

/-- Provider output with a `ROOT` token that is not a verb: no token
qualifies for action extraction. -/
def nounDoc : Doc :=
  ⟨["The cat.".toList],
   [⟨0, "The", "DET", "det", 1⟩,
    ⟨1, "cat", "NOUN", "ROOT", 1⟩,
    ⟨2, ".", "PUNCT", "punct", 1⟩],
   []⟩

/-- A concrete phrase constructor for the C10 witness. -/
def vpW : Token → String := fun t => t.text

/-- Witness for C10 at a concrete verb-free provider output. -/
theorem detect_actions_empty_witness :
    detect_actions vpW (Except.ok nounDoc) = Except.ok [] :=
  detect_actions_empty_on_no_verbs vpW nounDoc (by decide)

/-! ## Claim C9 -/

/-- The assembler emits consecutive ids starting at its counter. -/
theorem assembleLoop_ids (ef : List Char → Except ProcessingError (List Entity))
    (af : List Char → Except ProcessingError (List String))
    (mf : List Char → Except ProcessingError EmotionType) :
    ∀ (l : List (List Char)) (i : Nat) (ss : List Scene),
      assembleLoop ef af mf i l = Except.ok ss →
      ss.map Scene.id = (List.range' i ss.length).map Int.ofNat := by
  intro l
  induction l with
  | nil =>
    intro i ss h
    simp only [assembleLoop] at h
    cases h
    simp
  | cons s rest ih =>
    intro i ss h
    simp only [assembleLoop] at h
    cases hef : ef s with
    | error e => rw [hef] at h; cases h
    | ok es =>
      rw [hef] at h
      cases haf : af s with
      | error e => rw [haf] at h; cases h
      | ok acts =>
        rw [haf] at h
        cases hmf : mf s with
        | error e => rw [hmf] at h; cases h
        | ok m =>
          rw [hmf] at h
          cases hrec : assembleLoop ef af mf (i + 1) rest with
          | error e => rw [hrec] at h; cases h
          | ok scenes =>
            rw [hrec] at h
            cases h
            have htail := ih (i + 1) scenes hrec
            simp [htail, List.range'_succ]

/-- Claim C9: for every successful `build_scenes` call returning `N` scenes,
the ids of the returned scenes are exactly `0 .. N-1` in emission order
(non-negative, unique, strictly increasing, contiguous from 0). -/
theorem build_scenes_ids (ef : List Char → Except ProcessingError (List Entity))
    (af : List Char → Except ProcessingError (List String))
    (mf : List Char → Except ProcessingError EmotionType)
    (text : List Char) (pr : Except Unit Doc) (ss : List Scene)
    (h : build_scenes ef af mf text pr = Except.ok ss) :
    ss.map Scene.id = (List.range ss.length).map Int.ofNat := by
  cases pr with
  | error e => simp [build_scenes, segment_scenes] at h
  | ok d =>
    have h2 : assembleLoop ef af mf 0 (segPure text d.sents) = Except.ok ss := h
    rw [List.range_eq_range']
    exact assembleLoop_ids ef af mf (segPure text d.sents) 0 ss h2

/-- A concrete entity stage for the C9 witness. -/
def entStageW : List Char → Except ProcessingError (List Entity) :=
  fun _ => Except.ok []

/-- A concrete action stage for the C9 witness. -/
def actStageW : List Char → Except ProcessingError (List String) :=
  fun _ => Except.ok []

/-- A concrete mood stage for the C9 witness. -/
def moodStageW : List Char → Except ProcessingError EmotionType :=
  fun _ => Except.ok EmotionType.NEUTRAL

/-- Provider output for the C9 witness: the first sentence fires the `later`
marker, so segmentation yields two scenes. -/
def docW9 : Doc := ⟨["Go now later.".toList, "Stop.".toList], [], []⟩

/-- Input text for the C9 witness. -/
def textW9 : List Char := "Go now later. Stop.".toList

/-- The two scenes the C9 witness run produces. -/
def scenesW9 : List Scene :=
  [⟨Int.ofNat 0, "Go now later.".toList, [], EmotionType.NEUTRAL, [], none, none⟩,
   ⟨Int.ofNat 1, "Stop.".toList, [], EmotionType.NEUTRAL, [], none, none⟩]

/-- Witness for C9 at a concrete two-scene run. -/
theorem build_scenes_ids_witness :
    build_scenes entStageW actStageW moodStageW textW9 (Except.ok docW9) =
      Except.ok scenesW9 ∧
    scenesW9.map Scene.id = (List.range scenesW9.length).map Int.ofNat :=
  ⟨rfl, build_scenes_ids entStageW actStageW moodStageW textW9 (Except.ok docW9)
    scenesW9 rfl⟩
